import Mathlib

/-
Verification of the channel / entity core of the imou_cam_ptz integration.

The development shallowly embeds the code of
`custom_components/imou_cam_ptz/imouapi/channel.py` and
`custom_components/imou_cam_ptz/imouapi/channel_entity.py` together with the
constant tables of `imouapi/const.py`.  Remote payloads (JSON dictionaries
returned by the opaque API client) are embedded as records whose fields are
`Option`-valued: `none` stands for an absent dictionary key.  Methods that can
raise return `Except PyExc`.  The API client itself is an external
collaborator; each embedded method receives the responses of the calls it
performs as explicit arguments (or as an `ApiOracle` of response functions),
and the remote calls a method issues are recorded in an `ApiEvent` trace where
a claim depends on them.
-/

set_option autoImplicit false

namespace ImouCamPtz

/-- Modelled from the spec: the code imports its exception types from an
`exceptions` module that is not among the sources at hand; section 7 of the
spec describes a single domain exception family (`ImouException`) with the
kinds `InvalidResponse`, `APIError` and `NotConnected`. -/
inductive ImouError where
  | invalidResponse
  | apiError
  | notConnected
deriving DecidableEq

/-- Outcome of an embedded method that raised: either a domain (Imou)
exception, or one of the Python built-in exceptions the code can hit. -/
inductive PyExc where
  | imou (e : ImouError)
  | keyError (key : String)
  | indexError
  | unboundLocalError (name : String)
deriving DecidableEq

/-- Constant `WAIT_AFTER_WAKE_UP = 4.0` of `imouapi/const.py`. -/
def WAIT_AFTER_WAKE_UP : Rat := 4

/-- Constant `CAMERA_WAIT_BEFORE_DOWNLOAD = 1.5` of `imouapi/const.py`. -/
def CAMERA_WAIT_BEFORE_DOWNLOAD : Rat := 3 / 2

/-- Constant `ONLINE_STATUS` of `imouapi/const.py`, as an association list in
the literal order of the Python dict. -/
def ONLINE_STATUS : List (String × String) :=
  [("0", "Offline"), ("1", "Online"), ("4", "Dormant"), ("UNKNOWN", "Unknown")]

/-- Lookup in an association list of strings, mirroring a Python dict read. -/
def lookupAL (table : List (String × String)) (key : String) : Option String :=
  (table.find? (fun p => p.1 == key)).map (fun p => p.2)

/-- Embeds `ONLINE_STATUS[code]`, `none` meaning the read would raise KeyError. -/
def lookupStatus (code : String) : Option String := lookupAL ONLINE_STATUS code

/-- Embeds the Python membership test `code in ONLINE_STATUS`. -/
def inOnlineStatus (code : String) : Bool := (lookupStatus code).isSome

/-- Constant `SENSORS` of `imouapi/const.py`. -/
def SENSORS : List (String × String) := [("status", "Status")]

/-- Constant `BUTTONS` of `imouapi/const.py`. -/
def BUTTONS : List (String × String) :=
  [("restartDevice", "Restart device"), ("turnCollection", "Turn to")]

/-- Constant `SELECTS` of `imouapi/const.py`. -/
def SELECTS : List (String × String) := [("turnCollection", "Turn to favourite point")]

/-- One element of the `channels` array of a device-online payload
(`async_api_deviceOnline` response): the keys `channelId` and `onLine` may be
absent. -/
structure ChannelOnlineRecord where
  channelId : Option String
  onLine : Option String
deriving DecidableEq

/-- Device-online payload (`async_api_deviceOnline` response): top-level
`onLine` code and `channels` array, either key possibly absent. -/
structure DeviceOnlineData where
  onLine : Option String
  channels : Option (List ChannelOnlineRecord)
deriving DecidableEq

/-- One element of the `channels` array of a device-detail payload. -/
structure DetailChannel where
  channelId : Option String
  channelName : Option String
  deviceId : Option String
deriving DecidableEq

/-- One element of the `deviceList` array of a device-detail payload
(`async_api_deviceBaseDetailList` response). -/
structure DeviceDetail where
  name : Option String
  deviceModel : Option String
  channels : Option (List DetailChannel)
deriving DecidableEq

/-- Device-detail payload: the `deviceList` key may be absent. -/
structure DetailListData where
  deviceList : Option (List DeviceDetail)
deriving DecidableEq

/-- One element of the `collections` array of a `async_api_getCollection`
response; the `name` key may be absent. -/
structure CollectionEntry where
  name : Option String
deriving DecidableEq

/-- Payload of `async_api_getCollection`: the `collections` key may be absent. -/
structure CollectionData where
  collections : Option (List CollectionEntry)
deriving DecidableEq

/-- One element of the `deviceList` array of a `async_api_deviceBaseList`
response. -/
structure DeviceListEntry where
  deviceId : Option String
deriving DecidableEq

/-- Payload of `async_api_deviceBaseList`: keys `deviceList` and `count`. -/
structure DeviceBaseListData where
  deviceList : Option (List DeviceListEntry)
  count : Option Nat
deriving DecidableEq

/-- A remote interaction issued by the embedded code: one API-client call or
one `asyncio.sleep`. -/
inductive ApiEvent where
  | deviceOnline (deviceId : String)
  | setDeviceCameraStatus (deviceId : String) (op : String) (enable : Bool)
  | sleep (seconds : Rat)
  | deviceBaseList
  | deviceBaseDetailList (deviceIds : List String)
  | getCollection (deviceId : String) (channelId : String)
  | restartDevice (deviceId : String)
  | turnCollection (deviceId : String) (channelId : String) (point : String)
deriving DecidableEq

/-- State of an `ImouSensor` (`channel_entity.py`): the common `ImouEntity`
fields plus `_state`.  The api client and the back reference to the owning
channel are not part of the state: the wake-up delegation through the back
reference is passed to each method as an explicit outcome argument. -/
structure ImouSensor where
  device_id : String
  channel_id : String
  sensor_type : String
  sensor_param : String
  description : String
  enabled : Bool := true
  updated : Bool := false
  attributes : List (String × String) := []
  state : Option String := none
deriving DecidableEq

/-- State of an `ImouButton` (`channel_entity.py`). -/
structure ImouButton where
  device_id : String
  channel_id : String
  sensor_type : String
  sensor_param : String
  description : String
  enabled : Bool := true
  updated : Bool := false
  attributes : List (String × String) := []
deriving DecidableEq

/-- State of an `ImouSelect` (`channel_entity.py`): the common fields plus
`_current_option` and `_available_options`. -/
structure ImouSelect where
  device_id : String
  channel_id : String
  sensor_type : String
  sensor_param : String
  description : String
  enabled : Bool := true
  updated : Bool := false
  attributes : List (String × String) := []
  current_option : Option String := none
  available_options : List String := []
deriving DecidableEq

/-- Constructor of `ImouSensor`: the description is
`f"{SENSORS[sensor_type]} {sensor_param}"`, raising KeyError on an unknown
sensor type. -/
def ImouSensor.make (device_id channel_id sensor_type sensor_param : String) :
    Except PyExc ImouSensor :=
  match lookupAL SENSORS sensor_type with
  | none => .error (.keyError sensor_type)
  | some d =>
    .ok { device_id := device_id, channel_id := channel_id,
          sensor_type := sensor_type, sensor_param := sensor_param,
          description := d ++ " " ++ sensor_param }

/-- Constructor of `ImouButton`: description from the `BUTTONS` table. -/
def ImouButton.make (device_id channel_id sensor_type sensor_param : String) :
    Except PyExc ImouButton :=
  match lookupAL BUTTONS sensor_type with
  | none => .error (.keyError sensor_type)
  | some d =>
    .ok { device_id := device_id, channel_id := channel_id,
          sensor_type := sensor_type, sensor_param := sensor_param,
          description := d ++ " " ++ sensor_param }

/-- Constructor of `ImouSelect`: description from the `SELECTS` table. -/
def ImouSelect.make (device_id channel_id sensor_type sensor_param : String) :
    Except PyExc ImouSelect :=
  match lookupAL SELECTS sensor_type with
  | none => .error (.keyError sensor_type)
  | some d =>
    .ok { device_id := device_id, channel_id := channel_id,
          sensor_type := sensor_type, sensor_param := sensor_param,
          description := d ++ " " ++ sensor_param }

/-- Embeds `ImouEntity._async_is_ready`.  `wakeup_outcome` stands for the run
of `self._device_instance.async_wakeup()`: `none` when no device instance is
set, otherwise the boolean result or the exception of that run. -/
def async_is_ready (enabled : Bool) (wakeup_outcome : Option (Except PyExc Bool)) :
    Except PyExc Bool :=
  if !enabled then .ok false
  else
    match wakeup_outcome with
    | some (.error e) => .error e
    | some (.ok awake) => .ok awake
    | none => .ok true

/-- The per-platform lists held in `ImouCamChannel._sensor_instances`. -/
structure SensorInstances where
  sensor : List ImouSensor := []
  button : List ImouButton := []
  select : List ImouSelect := []
deriving DecidableEq

/-- State of an `ImouCamChannel` (`channel.py`), with the field defaults of
`__init__`.  The api client is not part of the state; `_initialized` is named
`inited` here. -/
structure ImouCamChannel where
  device_id : String
  channel_id : String
  status : String := "unknown"
  channel_name : String := "N.A"
  device_name : String := "N.A"
  device_model : String := "N.A"
  full_name : String := "N.A"
  given_name : String := ""
  collections : List CollectionEntry := []
  sensor_instances : SensorInstances := {}
  inited : Bool := false
  enabled : Bool := true
  sleepable : Bool := false
  wait_after_wakeup : Rat := WAIT_AFTER_WAKE_UP
  camera_wait_before_download : Rat := CAMERA_WAIT_BEFORE_DOWNLOAD
deriving DecidableEq

/-- Embeds `ImouCamChannel.__init__(api_client, device_id, channel_id)`. -/
def newChannel (device_id channel_id : String) : ImouCamChannel :=
  { device_id := device_id, channel_id := channel_id }

/-- Embeds `ImouCamChannel.get_status`. -/
def get_status (ch : ImouCamChannel) : String := ch.status

/-- Embeds `ImouCamChannel.get_name`. -/
def get_name (ch : ImouCamChannel) : String :=
  if ch.given_name != "" then ch.given_name else ch.full_name

/-- Embeds `ImouCamChannel.is_online`: two reads of
`ONLINE_STATUS[self._status]`, raising KeyError when the status is not a key
of the table. -/
def is_online (ch : ImouCamChannel) : Except PyExc Bool :=
  match lookupStatus ch.status with
  | none => .error (.keyError ch.status)
  | some label => .ok (label == "Online" || label == "Dormant")

/-- Embeds the generator `next((c for c in device_data["channels"] if
c.get("channelId") == self._channel_id), None)` of `async_refresh_status`
(line 260 of channel.py): `c.get` never raises. -/
def findOnlineRecord (chans : List ChannelOnlineRecord) (cid : String) :
    Option ChannelOnlineRecord :=
  chans.find? (fun c => c.channelId == some cid)

/-- Embeds `ImouCamChannel.async_refresh_status`.  `resp` is the outcome of
the `async_api_deviceOnline` call (the client raises domain errors). -/
def async_refresh_status (ch : ImouCamChannel)
    (resp : Except ImouError DeviceOnlineData) : Except PyExc ImouCamChannel :=
  match resp with
  | .error e => .error (.imou e)
  | .ok device_data =>
    match device_data.onLine with
    | none => .error (.imou .invalidResponse)
    | some topCode =>
      if !inOnlineStatus topCode then .error (.imou .invalidResponse)
      else
        match device_data.channels with
        | none => .error (.keyError "channels")
        | some chans =>
          match findOnlineRecord chans ch.channel_id with
          | none => .error (.imou .invalidResponse)
          | some channel_data =>
            match channel_data.onLine with
            | none => .error (.imou .invalidResponse)
            | some code =>
              if !inOnlineStatus code then .error (.imou .invalidResponse)
              else .ok { ch with status := code }

/-- Embeds `ImouCamChannel.async_wakeup`.  `resp1` and `resp2` are the
responses of the first and second `async_api_deviceOnline` calls, `wakeResp`
the outcome of `async_api_setDeviceCameraStatus`.  The returned trace lists
the remote interactions actually issued, in order. -/
def async_wakeup (ch : ImouCamChannel)
    (resp1 resp2 : Except ImouError DeviceOnlineData)
    (wakeResp : Except ImouError Unit) :
    Except PyExc Bool × ImouCamChannel × List ApiEvent :=
  if !ch.sleepable then (.ok true, ch, [])
  else
    match async_refresh_status ch resp1 with
    | .error e => (.error e, ch, [.deviceOnline ch.device_id])
    | .ok ch1 =>
      match lookupStatus ch1.status with
      | none => (.error (.keyError ch1.status), ch1, [.deviceOnline ch.device_id])
      | some label =>
        if label == "Online" then (.ok true, ch1, [.deviceOnline ch.device_id])
        else
          match wakeResp with
          | .error e =>
            (.error (.imou e), ch1,
             [.deviceOnline ch.device_id,
              .setDeviceCameraStatus ch.device_id "closeDormant" true])
          | .ok _ =>
            match async_refresh_status ch1 resp2 with
            | .error e =>
              (.error e, ch1,
               [.deviceOnline ch.device_id,
                .setDeviceCameraStatus ch.device_id "closeDormant" true,
                .sleep ch1.wait_after_wakeup,
                .deviceOnline ch.device_id])
            | .ok ch2 =>
              match lookupStatus ch2.status with
              | none =>
                (.error (.keyError ch2.status), ch2,
                 [.deviceOnline ch.device_id,
                  .setDeviceCameraStatus ch.device_id "closeDormant" true,
                  .sleep ch1.wait_after_wakeup,
                  .deviceOnline ch.device_id])
              | some label2 =>
                if label2 == "Online" then
                  (.ok true, ch2,
                   [.deviceOnline ch.device_id,
                    .setDeviceCameraStatus ch.device_id "closeDormant" true,
                    .sleep ch1.wait_after_wakeup,
                    .deviceOnline ch.device_id])
                else
                  (.ok false, ch2,
                   [.deviceOnline ch.device_id,
                    .setDeviceCameraStatus ch.device_id "closeDormant" true,
                    .sleep ch1.wait_after_wakeup,
                    .deviceOnline ch.device_id])

/-- True exactly on `setDeviceCameraStatus` events. -/
def isWakeCmd : ApiEvent → Bool
  | .setDeviceCameraStatus _ _ _ => true
  | _ => false

/-- True exactly on `sleep` events. -/
def isSleepEv : ApiEvent → Bool
  | .sleep _ => true
  | _ => false

/-- True exactly on `deviceOnline` calls. -/
def isOnlineCall : ApiEvent → Bool
  | .deviceOnline _ => true
  | _ => false

/-- Embeds the generator `next((c for c in device_data["channels"] if
c["channelId"] == self._channel_id), None)` of `async_initialize`
(line 187 of channel.py): the bracketed read raises KeyError when a record
lacks the `channelId` key. -/
def findDetailChannel (chans : List DetailChannel) (cid : String) :
    Except PyExc (Option DetailChannel) :=
  match chans with
  | [] => .ok none
  | c :: rest =>
    match c.channelId with
    | none => .error (.keyError "channelId")
    | some id => if id == cid then .ok (some c) else findDetailChannel rest cid

/-- Embeds the `for collection in self._collections` loop of
`async_initialize`: one `turnCollection` button per collection, parameterized
by `collection["name"]` (KeyError when the key is absent). -/
def addCollectionButtons (ch : ImouCamChannel) (colls : List CollectionEntry) :
    ImouCamChannel × Option PyExc :=
  match colls with
  | [] => (ch, none)
  | c :: rest =>
    match c.name with
    | none => (ch, some (.keyError "name"))
    | some nm =>
      match ImouButton.make ch.device_id ch.channel_id "turnCollection" nm with
      | .error e => (ch, some e)
      | .ok b =>
        addCollectionButtons
          { ch with sensor_instances :=
              { ch.sensor_instances with
                  button := ch.sensor_instances.button ++ [b] } } rest

/-- Embeds the entity construction block of `async_initialize` (lines 201 to
246 of channel.py): status sensor, restartDevice button, one turnCollection
button per collection, then the turnCollection select. -/
def addEntityBlock (ch : ImouCamChannel) (colls : List CollectionEntry) :
    ImouCamChannel × Option PyExc :=
  match ImouSensor.make ch.device_id ch.channel_id "status" "" with
  | .error e => (ch, some e)
  | .ok statusSensor =>
    let ch :=
      { ch with sensor_instances :=
          { ch.sensor_instances with
              sensor := ch.sensor_instances.sensor ++ [statusSensor] } }
    match ImouButton.make ch.device_id ch.channel_id "restartDevice" "" with
    | .error e => (ch, some e)
    | .ok restartBtn =>
      let ch :=
        { ch with sensor_instances :=
            { ch.sensor_instances with
                button := ch.sensor_instances.button ++ [restartBtn] } }
      match addCollectionButtons ch colls with
      | (ch, some e) => (ch, some e)
      | (ch, none) =>
        match ImouSelect.make ch.device_id ch.channel_id "turnCollection" "" with
        | .error e => (ch, some e)
        | .ok sel =>
          ({ ch with sensor_instances :=
              { ch.sensor_instances with
                  select := ch.sensor_instances.select ++ [sel] } }, none)

/-- Embeds the body of the `try` block of `ImouCamChannel.async_initialize`
(lines 174 to 246 of channel.py): the state after the partial execution and
the exception that escaped the body, if any.  `detailResp` and `collResp` are
the outcomes of the `async_api_deviceBaseDetailList([self._device_id])` and
`async_api_getCollection` calls. -/
def initBody (ch : ImouCamChannel) (detailResp : Except ImouError DetailListData)
    (collResp : Except ImouError CollectionData) : ImouCamChannel × Option PyExc :=
  match detailResp with
  | .error e => (ch, some (.imou e))
  | .ok device_array =>
    match device_array.deviceList with
    | none => (ch, some (.imou .invalidResponse))
    | some dl =>
      match dl with
      | [device_data] =>
        match device_data.name with
        | none => (ch, some (.keyError "name"))
        | some dname =>
          match device_data.deviceModel with
          | none => ({ ch with device_name := dname }, some (.keyError "deviceModel"))
          | some dmodel =>
            let ch := { ch with device_name := dname, device_model := dmodel }
            match device_data.channels with
            | none => (ch, some (.keyError "channels"))
            | some chans =>
              match findDetailChannel chans ch.channel_id with
              | .error e => (ch, some e)
              | .ok none => (ch, some (.imou .invalidResponse))
              | .ok (some channel_data) =>
                match channel_data.channelName with
                | none => (ch, some (.keyError "channelName"))
                | some cname =>
                  let ch := { ch with channel_name := cname,
                                      full_name := dname ++ " - " ++ cname }
                  match collResp with
                  | .error e => (ch, some (.imou e))
                  | .ok favourites =>
                    match favourites.collections with
                    | none => (ch, some (.keyError "collections"))
                    | some colls =>
                      addEntityBlock { ch with collections := colls } colls
      | _ => (ch, some (.imou .invalidResponse))

/-- Embeds `ImouCamChannel.async_initialize`: domain (Imou) exceptions from
the body are caught and logged, any other exception propagates before
`self._initialized = True` is reached; the flag is set on every non-raising
return. -/
def async_initialise (ch : ImouCamChannel)
    (detailResp : Except ImouError DetailListData)
    (collResp : Except ImouError CollectionData) : Except PyExc ImouCamChannel :=
  match initBody ch detailResp collResp with
  | (ch1, none) => .ok { ch1 with inited := true }
  | (ch1, some (.imou _)) => .ok { ch1 with inited := true }
  | (_, some e) => .error e

/-- Embeds the generator `next((c for c in device_data["channels"] if
c["channelId"] == self._channel_id), None)` of `ImouSensor.async_update`
(line 137 of channel_entity.py): the bracketed read raises KeyError when a
record lacks the `channelId` key. -/
def findOnlineByChannelId (chans : List ChannelOnlineRecord) (cid : String) :
    Except PyExc (Option ChannelOnlineRecord) :=
  match chans with
  | [] => .ok none
  | c :: rest =>
    match c.channelId with
    | none => .error (.keyError "channelId")
    | some id => if id == cid then .ok (some c) else findOnlineByChannelId rest cid

/-- Embeds `ImouSensor.async_update`.  `wakeup_outcome` is the run of the
owning channel wake-up inside `_async_is_ready` (`none` when no device
instance is set); `resp` is the outcome of the `async_api_deviceOnline`
call performed for a status sensor. -/
def ImouSensor.async_update (s : ImouSensor)
    (wakeup_outcome : Option (Except PyExc Bool))
    (resp : Except ImouError DeviceOnlineData) : Except PyExc ImouSensor :=
  match async_is_ready s.enabled wakeup_outcome with
  | .error e => .error e
  | .ok false => .ok s
  | .ok true =>
    if s.sensor_type == "status" then
      match resp with
      | .error e => .error (.imou e)
      | .ok device_data =>
        match device_data.onLine with
        | none => .error (.imou .invalidResponse)
        | some dcode =>
          if inOnlineStatus dcode then
            match device_data.channels with
            | none => .error (.keyError "channels")
            | some chans =>
              match findOnlineByChannelId chans s.channel_id with
              | .error e => .error e
              | .ok (some channel_data) =>
                match channel_data.onLine with
                | none => .error (.keyError "onLine")
                | some ccode =>
                  match lookupStatus ccode with
                  | some label => .ok { s with state := some label, updated := true }
                  | none => .ok { s with state := lookupStatus "UNKNOWN", updated := true }
              | .ok none => .ok { s with state := lookupStatus "UNKNOWN", updated := true }
          else .ok { s with state := lookupStatus "UNKNOWN", updated := true }
    else .ok { s with updated := true }

/-- Embeds `ImouSelect.async_select_option`.  The sentinel comparison
`option == self._available_options[0]` runs before the readiness gate and
raises IndexError on an empty options list.  `turnResp` is the outcome of the
`async_api_turnCollection` call; the returned trace lists the remote calls
issued. -/
def ImouSelect.async_select_option (s : ImouSelect)
    (wakeup_outcome : Option (Except PyExc Bool)) (option : String)
    (turnResp : Except ImouError Unit) :
    Except PyExc (ImouSelect × List ApiEvent) :=
  match s.available_options with
  | [] => .error .indexError
  | first :: _ =>
    if option == first then .ok (s, [])
    else
      match async_is_ready s.enabled wakeup_outcome with
      | .error e => .error e
      | .ok false => .ok (s, [])
      | .ok true =>
        if s.sensor_type == "turnCollection" then
          match turnResp with
          | .error e =>
            .error (.imou e)
          | .ok _ =>
            .ok ({ s with current_option := some first },
                 [.turnCollection s.device_id s.channel_id option])
        else .ok (s, [])

/-- Deterministic responses of the opaque API client, used by the discovery
embedding: each operation maps its arguments to a response or a domain
error. -/
structure ApiOracle where
  deviceBaseList : Except ImouError DeviceBaseListData
  deviceBaseDetailList : List String → Except ImouError DetailListData
  getCollection : String → String → Except ImouError CollectionData

/-- Python dict assignment `channels[key] = value`: replaces the value of an
existing key in place, otherwise appends. -/
def dictInsert (m : List (String × ImouCamChannel)) (k : String)
    (v : ImouCamChannel) : List (String × ImouCamChannel) :=
  match m with
  | [] => [(k, v)]
  | (k0, v0) :: rest =>
    if k0 == k then (k0, v) :: rest else (k0, v0) :: dictInsert rest k v

/-- Embeds the inner `for channel_data in device_detailed_data["channels"]`
loop of `async_discover_channels` (lines 340 to 346 of channel.py): construct
a channel from `channel_data["deviceId"]` and `channel_data["channelId"]`,
run its initialization, then bind it under its display name.  Returns the
`channels` dict after the last completed step and the exception that escaped,
if any. -/
def channelLoop (api : ApiOracle) (chans : List DetailChannel)
    (channels : List (String × ImouCamChannel)) :
    List (String × ImouCamChannel) × Option PyExc :=
  match chans with
  | [] => (channels, none)
  | cd :: rest =>
    match cd.deviceId with
    | none => (channels, some (.keyError "deviceId"))
    | some did =>
      match cd.channelId with
      | none => (channels, some (.keyError "channelId"))
      | some cid =>
        match async_initialise (newChannel did cid)
            (api.deviceBaseDetailList [did]) (api.getCollection did cid) with
        | .error e => (channels, some e)
        | .ok ch => channelLoop api rest (dictInsert channels (get_name ch) ch)

/-- Embeds the outer `for device_data in devices_data["deviceList"]` loop of
`async_discover_channels` (lines 328 to 346 of channel.py). -/
def discoverLoop (api : ApiOracle) (devices : List DeviceListEntry)
    (channels : List (String × ImouCamChannel)) :
    List (String × ImouCamChannel) × Option PyExc :=
  match devices with
  | [] => (channels, none)
  | d :: rest =>
    match d.deviceId with
    | none => (channels, some (.keyError "deviceId"))
    | some did =>
      match api.deviceBaseDetailList [did] with
      | .error e => (channels, some (.imou e))
      | .ok arr =>
        match arr.deviceList with
        | none => (channels, some (.imou .invalidResponse))
        | some dl =>
          match dl with
          | [detail] =>
            match detail.channels with
            | none => (channels, some (.keyError "channels"))
            | some chans =>
              match channelLoop api chans channels with
              | (cs, some e) => (cs, some e)
              | (cs, none) => discoverLoop api rest cs
          | _ => (channels, some (.imou .invalidResponse))

/-- Embeds the body of the `try` block of
`ImouDiscoverService.async_discover_channels`: the first component is the
value of the local variable `channels` (`none` while it is still unbound),
the second the exception that escaped the body, if any. -/
def discoverBody (api : ApiOracle) :
    Option (List (String × ImouCamChannel)) × Option PyExc :=
  match api.deviceBaseList with
  | .error e => (none, some (.imou e))
  | .ok devices_data =>
    match devices_data.deviceList, devices_data.count with
    | some dl, some _ =>
      match discoverLoop api dl [] with
      | (cs, exc) => (some cs, exc)
    | _, _ => (none, some (.imou .invalidResponse))

/-- Embeds `ImouDiscoverService.async_discover_channels`: an InvalidResponse
or any other domain exception is caught (with a warning or an error log) and
control falls through to `return channels`; when the local `channels` was
never assigned that return itself raises UnboundLocalError.  Non-domain
exceptions propagate. -/
def async_discover_channels (api : ApiOracle) :
    Except PyExc (List (String × ImouCamChannel)) :=
  match discoverBody api with
  | (some cs, none) => .ok cs
  | (none, none) => .error (.unboundLocalError "channels")
  | (some cs, some (.imou _)) => .ok cs
  | (none, some (.imou _)) => .error (.unboundLocalError "channels")
  | (_, some e) => .error e

/-- Case split used by the amended claim on the status sensor: the payload
configurations for which `ImouSensor.async_update` resolves the state to the
Unknown sentinel instead of raising. -/
def unknownFallbackCase (d : DeviceOnlineData) (cid : String) : Prop :=
  (∃ dcode, d.onLine = some dcode ∧ inOnlineStatus dcode = false) ∨
  (∃ dcode chans, d.onLine = some dcode ∧ inOnlineStatus dcode = true ∧
    d.channels = some chans ∧
    (findOnlineByChannelId chans cid = .ok none ∨
     ∃ cd ccode, findOnlineByChannelId chans cid = .ok (some cd) ∧
       cd.onLine = some ccode ∧ inOnlineStatus ccode = false))

/-- Helper: a code accepted by the `ONLINE_STATUS` membership test maps to
one of the four labels of the table. -/
theorem lookupStatus_mem_cases (c : String) (h : inOnlineStatus c = true) :
    lookupStatus c = some "Offline" ∨ lookupStatus c = some "Online" ∨
    lookupStatus c = some "Dormant" ∨ lookupStatus c = some "Unknown" := by
  unfold inOnlineStatus lookupStatus lookupAL ONLINE_STATUS at *
  by_cases h0 : "0" == c
  · simp [List.find?, h0]
  · by_cases h1 : "1" == c
    · simp [List.find?, h0, h1]
    · by_cases h4 : "4" == c
      · simp [List.find?, h0, h1, h4]
      · by_cases hu : "UNKNOWN" == c
        · simp [List.find?, h0, h1, h4, hu]
        · simp [List.find?, h0, h1, h4, hu] at h

/-- Helper: a successful `async_refresh_status` run stores a code accepted by
the `ONLINE_STATUS` membership test, leaves every other field unchanged, and
the stored code is exactly the raw `onLine` value of the channel sub-record
located in the payload. -/
theorem refresh_ok_spec (ch : ImouCamChannel) (resp : Except ImouError DeviceOnlineData)
    (ch1 : ImouCamChannel) (h : async_refresh_status ch resp = .ok ch1) :
    inOnlineStatus ch1.status = true ∧ ch1.device_id = ch.device_id ∧
    ch1.wait_after_wakeup = ch.wait_after_wakeup ∧
    ∃ dd chans cd, resp = .ok dd ∧ dd.channels = some chans ∧
      findOnlineRecord chans ch.channel_id = some cd ∧ cd.onLine = some ch1.status := by
  unfold async_refresh_status at h
  rcases resp with e | dd
  · exact Except.noConfusion h
  dsimp only at h
  rcases hdo : dd.onLine with _ | top
  · rw [hdo] at h
    exact Except.noConfusion h
  rw [hdo] at h
  dsimp only at h
  by_cases htop : inOnlineStatus top = true
  · rw [htop] at h
    simp only [Bool.not_true, Bool.false_eq_true, if_false] at h
    rcases hch : dd.channels with _ | chans
    · rw [hch] at h
      exact Except.noConfusion h
    rw [hch] at h
    dsimp only at h
    rcases hfind : findOnlineRecord chans ch.channel_id with _ | cd
    · rw [hfind] at h
      exact Except.noConfusion h
    rw [hfind] at h
    dsimp only at h
    rcases hco : cd.onLine with _ | code
    · rw [hco] at h
      exact Except.noConfusion h
    rw [hco] at h
    dsimp only at h
    by_cases hcode : inOnlineStatus code = true
    · rw [hcode] at h
      simp only [Bool.not_true, Bool.false_eq_true, if_false] at h
      have hch1 : ch1 = { ch with status := code } := by
        cases h
        rfl
      subst hch1
      exact ⟨hcode, rfl, rfl, dd, chans, cd, rfl, hch, hfind, hco⟩
    · rw [Bool.not_eq_true] at hcode
      rw [hcode] at h
      simp only [Bool.not_false, if_true] at h
      exact Except.noConfusion h
  · rw [Bool.not_eq_true] at htop
    rw [htop] at h
    simp only [Bool.not_false, if_true] at h
    exact Except.noConfusion h

/-- C5: on a freshly constructed channel, before any successful
refresh_status, `is_online()` raises KeyError instead of returning a boolean,
because the constructor default status "unknown" is not among the keys
"0", "1", "4", "UNKNOWN" of `ONLINE_STATUS`. -/
theorem C5_is_online_fresh_channel_raises (d c : String) :
    is_online (newChannel d c) = .error (.keyError "unknown") ∧
    lookupStatus "unknown" = none ∧
    ONLINE_STATUS.map Prod.fst = ["0", "1", "4", "UNKNOWN"] :=
  ⟨rfl, rfl, rfl⟩

/-- C10: `wakeup()` on a channel that is not sleep-capable returns true
immediately, leaves the channel unchanged, and issues no remote interaction
at all (empty trace: no status refresh, no wake command, no sleep). -/
theorem C10_wakeup_not_sleepable_no_calls (ch : ImouCamChannel)
    (r1 r2 : Except ImouError DeviceOnlineData) (w : Except ImouError Unit)
    (h : ch.sleepable = false) :
    async_wakeup ch r1 r2 w = (.ok true, ch, []) := by
  unfold async_wakeup
  rw [h]
  rfl

/-- Witness for C10 at a concrete non-sleep-capable channel. -/
theorem C10_witness :
    async_wakeup (newChannel "D1" "C1") (.error .apiError) (.error .apiError)
        (.error .apiError) = (.ok true, newChannel "D1" "C1", []) :=
  C10_wakeup_not_sleepable_no_calls (newChannel "D1" "C1") _ _ _ rfl

/-- C9: `select_option` on a Select whose available-options list is empty
raises IndexError on the sentinel comparison, for every option argument and
regardless of the enabled flag, instead of returning as a no-op. -/
theorem C9_select_option_empty_options_raises (s : ImouSelect)
    (wk : Option (Except PyExc Bool)) (opt : String) (tr : Except ImouError Unit)
    (h : s.available_options = []) :
    ImouSelect.async_select_option s wk opt tr = .error .indexError := by
  unfold ImouSelect.async_select_option
  rw [h]

/-- Witness for C9 at a concrete disabled select with no options. -/
theorem C9_witness :
    ImouSelect.async_select_option
      { device_id := "D1", channel_id := "C1", sensor_type := "turnCollection",
        sensor_param := "", description := "Turn to favourite point ",
        enabled := false }
      none "any option" (.ok ()) = .error .indexError :=
  C9_select_option_empty_options_raises _ none "any option" (.ok ()) rfl

/-- C8: with a non-empty available-options list, selecting the sentinel
option (index 0) is a no-op: the state is returned unchanged (current option,
options list, updated flag included) and the call trace is empty. -/
theorem C8_select_sentinel_noop (s : ImouSelect) (wk : Option (Except PyExc Bool))
    (tr : Except ImouError Unit) (first : String) (rest : List String)
    (h : s.available_options = first :: rest) :
    ImouSelect.async_select_option s wk first tr = .ok (s, []) := by
  unfold ImouSelect.async_select_option
  rw [h]
  simp

/-- Witness for C8 at a concrete select whose sentinel is the index-0
placeholder. -/
theorem C8_witness :
    ImouSelect.async_select_option
      { device_id := "D1", channel_id := "C1", sensor_type := "turnCollection",
        sensor_param := "", description := "Turn to favourite point ",
        available_options := ["placeholder", "point A"] }
      none "placeholder" (.ok ()) =
      .ok ({ device_id := "D1", channel_id := "C1", sensor_type := "turnCollection",
             sensor_param := "", description := "Turn to favourite point ",
             available_options := ["placeholder", "point A"] }, []) :=
  C8_select_sentinel_noop _ none (.ok ()) "placeholder" ["point A"] rfl

/-- Counterexample to C1: with top-level code "1" and channel code "4",
`refresh_status` stores the raw code "4", and `get_status()` returns "4",
not the mapped label "Dormant". -/
theorem C1_counterexample :
    (async_refresh_status (newChannel "D1" "C1")
        (.ok { onLine := some "1",
               channels := some [{ channelId := some "C1", onLine := some "4" }] })).map
        get_status = .ok "4" ∧ ("4" : String) ≠ "Dormant" :=
  ⟨rfl, by decide⟩

/-- C1 (amended): a successful `refresh_status` stores the raw channel-level
code of the located sub-record; the stored code is a recognized key of
`ONLINE_STATUS` and its mapped label is one of Offline, Online, Dormant or
Unknown. -/
theorem C1_refresh_stores_recognized_raw_code (ch : ImouCamChannel)
    (resp : Except ImouError DeviceOnlineData) (ch1 : ImouCamChannel)
    (h : async_refresh_status ch resp = .ok ch1) :
    inOnlineStatus (get_status ch1) = true ∧
    (lookupStatus (get_status ch1) = some "Offline" ∨
     lookupStatus (get_status ch1) = some "Online" ∨
     lookupStatus (get_status ch1) = some "Dormant" ∨
     lookupStatus (get_status ch1) = some "Unknown") ∧
    ∃ dd chans cd, resp = .ok dd ∧ dd.channels = some chans ∧
      findOnlineRecord chans ch.channel_id = some cd ∧
      cd.onLine = some (get_status ch1) := by
  obtain ⟨hin, _, _, hex⟩ := refresh_ok_spec ch resp ch1 h
  exact ⟨hin, lookupStatus_mem_cases _ hin, hex⟩

/-- Witness for the amended C1 at the scenario payload of the claim. -/
theorem C1_witness :
    inOnlineStatus (get_status { newChannel "D1" "C1" with status := "4" }) = true ∧
    lookupStatus (get_status { newChannel "D1" "C1" with status := "4" }) = some "Dormant" := by
  have hthm := C1_refresh_stores_recognized_raw_code (newChannel "D1" "C1")
    (.ok { onLine := some "1",
           channels := some [{ channelId := some "C1", onLine := some "4" }] })
    { newChannel "D1" "C1" with status := "4" } rfl
  exact ⟨hthm.1, rfl⟩

/-- Counterexample to C3: on a ready status sensor, a payload with no
device-level `onLine` key makes `async_update` raise InvalidResponse instead
of resolving the state to the Unknown sentinel. -/
theorem C3_counterexample :
    ImouSensor.async_update
      { device_id := "D1", channel_id := "C1", sensor_type := "status",
        sensor_param := "", description := "Status " }
      none (.ok { onLine := none, channels := some [] }) =
      .error (.imou .invalidResponse) := rfl

/-- C3 (amended): on a ready status sensor, the state is resolved to the
Unknown sentinel without raising exactly when the device-level code is
present but unrecognized, or the channel sub-record is absent, or the channel
sub-record carries a present but unrecognized code; an absent device-level
code instead raises InvalidResponse, and a located channel sub-record with no
code raises KeyError. -/
theorem C3_status_sensor_unknown_fallback :
    (∀ (s : ImouSensor) (wk : Option (Except PyExc Bool)) (d : DeviceOnlineData),
      async_is_ready s.enabled wk = .ok true → s.sensor_type = "status" →
      unknownFallbackCase d s.channel_id →
      ImouSensor.async_update s wk (.ok d) =
        .ok { s with state := some "Unknown", updated := true }) ∧
    (∀ (s : ImouSensor) (wk : Option (Except PyExc Bool)) (d : DeviceOnlineData),
      async_is_ready s.enabled wk = .ok true → s.sensor_type = "status" →
      d.onLine = none →
      ImouSensor.async_update s wk (.ok d) = .error (.imou .invalidResponse)) ∧
    (∀ (s : ImouSensor) (wk : Option (Except PyExc Bool)) (d : DeviceOnlineData)
      (chans : List ChannelOnlineRecord) (cd : ChannelOnlineRecord) (dcode : String),
      async_is_ready s.enabled wk = .ok true → s.sensor_type = "status" →
      d.onLine = some dcode → inOnlineStatus dcode = true →
      d.channels = some chans →
      findOnlineByChannelId chans s.channel_id = .ok (some cd) →
      cd.onLine = none →
      ImouSensor.async_update s wk (.ok d) = .error (.keyError "onLine")) := by
  refine ⟨?_, ?_, ?_⟩
  · intro s wk d hready htype hcase
    unfold ImouSensor.async_update
    rw [hready]
    dsimp only
    rw [htype]
    simp only [beq_self_eq_true, if_true]
    rcases hcase with ⟨dcode, hdo, hbad⟩ | ⟨dcode, chans, hdo, hgood, hch, hrest⟩
    · rw [hdo]
      dsimp only
      rw [hbad]
      rfl
    · rw [hdo]
      dsimp only
      rw [hgood]
      simp only [if_true]
      rw [hch]
      dsimp only
      rcases hrest with hfind | ⟨cd, ccode, hfind, hco, hccode⟩
      · rw [hfind]
        rfl
      · rw [hfind]
        dsimp only
        rw [hco]
        dsimp only
        have hnone : lookupStatus ccode = none := by
          unfold inOnlineStatus at hccode
          rcases hl : lookupStatus ccode with _ | v
          · rfl
          · rw [hl] at hccode
            simp at hccode
        rw [hnone]
        rfl
  · intro s wk d hready htype hdo
    unfold ImouSensor.async_update
    rw [hready]
    dsimp only
    rw [htype]
    simp only [beq_self_eq_true, if_true]
    rw [hdo]
  · intro s wk d chans cd dcode hready htype hdo hgood hch hfind hco
    unfold ImouSensor.async_update
    rw [hready]
    dsimp only
    rw [htype]
    simp only [beq_self_eq_true, if_true]
    rw [hdo]
    dsimp only
    rw [hgood]
    simp only [if_true]
    rw [hch]
    dsimp only
    rw [hfind]
    dsimp only
    rw [hco]

/-- Witness for the amended C3: a ready status sensor with an unrecognized
device-level code resolves to the Unknown sentinel. -/
theorem C3_witness :
    ImouSensor.async_update
      { device_id := "D1", channel_id := "C1", sensor_type := "status",
        sensor_param := "", description := "Status " }
      none (.ok { onLine := some "7", channels := none }) =
      .ok { device_id := "D1", channel_id := "C1", sensor_type := "status",
            sensor_param := "", description := "Status ",
            state := some "Unknown", updated := true } :=
  C3_status_sensor_unknown_fallback.1
    { device_id := "D1", channel_id := "C1", sensor_type := "status",
      sensor_param := "", description := "Status " }
    none { onLine := some "7", channels := none } rfl rfl (Or.inl ⟨"7", rfl, rfl⟩)

/-- C4: whenever a domain (Imou) exception escapes the body of
`Channel.initialize`, the method catches it, returns normally instead of
propagating, and still sets the initialized flag true. -/
theorem C4_init_swallows_domain_errors (ch : ImouCamChannel)
    (d : Except ImouError DetailListData) (c : Except ImouError CollectionData)
    (e : ImouError) (h : (initBody ch d c).2 = some (.imou e)) :
    ∃ ch1, async_initialise ch d c = .ok ch1 ∧ ch1.inited = true := by
  unfold async_initialise
  rcases hb : initBody ch d c with ⟨ch0, exc⟩
  rw [hb] at h
  dsimp only at h
  subst h
  exact ⟨{ ch0 with inited := true }, rfl, rfl⟩

/-- Witness for C4 at an input whose device-detail payload lacks the
deviceList key, one of the InvalidResponse triggers named by the claim. -/
theorem C4_witness :
    (initBody (newChannel "D1" "C1") (.ok { deviceList := none })
        (.ok { collections := some [] })).2 = some (.imou .invalidResponse) ∧
    ∃ ch1, async_initialise (newChannel "D1" "C1") (.ok { deviceList := none })
        (.ok { collections := some [] }) = .ok ch1 ∧ ch1.inited = true :=
  ⟨rfl, C4_init_swallows_domain_errors _ _ _ .invalidResponse rfl⟩

/-- Device-detail payload of device D1 in the discovery scenarios. -/
def detailD1 : DetailListData :=
  { deviceList := some
      [{ name := some "Home1", deviceModel := some "X1",
         channels := some
           [{ channelId := some "C1", channelName := some "Cam1",
              deviceId := some "D1" }] }] }

/-- Device-detail payload of device D3 in the discovery scenarios. -/
def detailD3 : DetailListData :=
  { deviceList := some
      [{ name := some "Home3", deviceModel := some "X3",
         channels := some
           [{ channelId := some "C3", channelName := some "Cam3",
              deviceId := some "D3" }] }] }

/-- Oracle of the C2 scenario: three registered devices, the detail lookup of
the second one failing with InvalidResponse, the other two fully valid. -/
def oracleC2 : ApiOracle :=
  { deviceBaseList := .ok
      { deviceList := some [{ deviceId := some "D1" }, { deviceId := some "D2" },
                            { deviceId := some "D3" }],
        count := some 3 },
    deviceBaseDetailList := fun ids =>
      if ids == ["D1"] then .ok detailD1
      else if ids == ["D3"] then .ok detailD3
      else .error .invalidResponse,
    getCollection := fun _ _ => .ok { collections := some [] } }

/-- C2 at its failing input: with devices D1, D2, D3 registered and the
detail lookup of D2 failing with InvalidResponse, discovery aborts the
enumeration at D2 and returns only the channel of D1 — the channel of D3 is
never enumerated, against the skip-and-continue behavior the claim states. -/
theorem C2_failing_input_aborts_enumeration :
    (async_discover_channels oracleC2).map (fun cs => cs.map Prod.fst) =
      .ok ["Home1 - Cam1"] := rfl

/-- Oracle of the C6 scenario: the initial device-list lookup itself fails
with a domain error other than InvalidResponse. -/
def oracleC6 : ApiOracle :=
  { deviceBaseList := .error .apiError,
    deviceBaseDetailList := fun _ => .error .apiError,
    getCollection := fun _ _ => .error .apiError }

/-- C6 at its failing input: when the initial device-list lookup fails with
APIError, the handler falls through to `return channels` while the local
`channels` was never assigned, so the call raises UnboundLocalError instead
of returning an empty mapping. -/
theorem C6_initial_failure_raises_unbound_local :
    async_discover_channels oracleC6 = .error (.unboundLocalError "channels") := rfl
/-- Helper: under the C7 premises the wake path of `async_wakeup` produces
exactly the four-event trace initial-refresh, close-dormant command, settle
sleep, re-check refresh, whatever the outcome of the second refresh. -/
theorem wakeup_wake_path_trace (ch : ImouCamChannel)
    (r1 r2 : Except ImouError DeviceOnlineData) (ch1 : ImouCamChannel)
    (hs : ch.sleepable = true)
    (h1 : async_refresh_status ch r1 = .ok ch1)
    (h2 : lookupStatus ch1.status ≠ some "Online") :
    (async_wakeup ch r1 r2 (.ok ())).2.2 =
      [.deviceOnline ch.device_id,
       .setDeviceCameraStatus ch.device_id "closeDormant" true,
       .sleep ch.wait_after_wakeup,
       .deviceOnline ch.device_id] := by
  obtain ⟨hin, _, hwait, _⟩ := refresh_ok_spec ch r1 ch1 h1
  have hin2 : (lookupStatus ch1.status).isSome = true := hin
  obtain ⟨label, hlab⟩ := Option.isSome_iff_exists.mp hin2
  have hlabne : label ≠ "Online" := by
    intro he
    exact h2 (he ▸ hlab)
  have hbeq : (label == "Online") = false := by
    simp [hlabne]
  unfold async_wakeup
  rw [hs]
  simp only [Bool.not_true, Bool.false_eq_true, if_false]
  rw [h1]
  dsimp only
  rw [hlab]
  dsimp only
  rw [hbeq]
  simp only [Bool.false_eq_true, if_false]
  rw [← hwait]
  rcases hr2 : async_refresh_status ch1 r2 with e2 | ch2
  · rfl
  · dsimp only
    rcases hl2 : lookupStatus ch2.status with _ | label2
    · rfl
    · dsimp only
      by_cases hon : (label2 == "Online") = true
      · rw [hon]
        rfl
      · rw [Bool.not_eq_true] at hon
        rw [hon]
        rfl

/-- C7: a call to `wakeup()` on a sleep-capable channel whose in-call status
refresh reports a status that does not map to Online issues exactly one
close-dormant command, exactly one settle delay of the configured duration,
and exactly two status-refresh calls (the initial one and one re-check),
whatever the outcome of the re-check. -/
theorem C7_wakeup_single_wake_attempt (ch : ImouCamChannel)
    (r1 r2 : Except ImouError DeviceOnlineData) (ch1 : ImouCamChannel)
    (hs : ch.sleepable = true)
    (h1 : async_refresh_status ch r1 = .ok ch1)
    (h2 : lookupStatus ch1.status ≠ some "Online") :
    ((async_wakeup ch r1 r2 (.ok ())).2.2).filter isWakeCmd =
      [.setDeviceCameraStatus ch.device_id "closeDormant" true] ∧
    ((async_wakeup ch r1 r2 (.ok ())).2.2).filter isSleepEv =
      [.sleep ch.wait_after_wakeup] ∧
    ((async_wakeup ch r1 r2 (.ok ())).2.2).filter isOnlineCall =
      [.deviceOnline ch.device_id, .deviceOnline ch.device_id] := by
  rw [wakeup_wake_path_trace ch r1 r2 ch1 hs h1 h2]
  refine ⟨?_, ?_, ?_⟩ <;> simp [List.filter, isWakeCmd, isSleepEv, isOnlineCall]

/-- Witness for C7: a sleep-capable channel refreshed to the Dormant code "4"
issues one close-dormant command, one settle sleep and two refresh calls. -/
theorem C7_witness :
    ((async_wakeup { newChannel "D1" "C1" with sleepable := true }
        (.ok { onLine := some "1",
               channels := some [{ channelId := some "C1", onLine := some "4" }] })
        (.ok { onLine := some "1",
               channels := some [{ channelId := some "C1", onLine := some "1" }] })
        (.ok ())).2.2).filter isWakeCmd =
      [.setDeviceCameraStatus "D1" "closeDormant" true] ∧
    ((async_wakeup { newChannel "D1" "C1" with sleepable := true }
        (.ok { onLine := some "1",
               channels := some [{ channelId := some "C1", onLine := some "4" }] })
        (.ok { onLine := some "1",
               channels := some [{ channelId := some "C1", onLine := some "1" }] })
        (.ok ())).2.2).filter isSleepEv =
      [.sleep WAIT_AFTER_WAKE_UP] ∧
    ((async_wakeup { newChannel "D1" "C1" with sleepable := true }
        (.ok { onLine := some "1",
               channels := some [{ channelId := some "C1", onLine := some "4" }] })
        (.ok { onLine := some "1",
               channels := some [{ channelId := some "C1", onLine := some "1" }] })
        (.ok ())).2.2).filter isOnlineCall =
      [.deviceOnline "D1", .deviceOnline "D1"] :=
  C7_wakeup_single_wake_attempt
    { newChannel "D1" "C1" with sleepable := true } _ _
    { newChannel "D1" "C1" with status := "4", sleepable := true }
    rfl rfl (by decide)

end ImouCamPtz
